import Mathlib

/-!
Shallow embedding of `src/crypto/src/batch_transcript.rs` from the
kzg-ceremony-sequencer repository.

The batch orchestration layer is embedded faithfully; the external
collaborators (the per-slot `Transcript` with its `new`, `contribution`,
`verify`, `add` operations, the `Identity` and `EcdsaSignature` types with
their sentinels, and the cryptographic `Engine`) are out of scope of this
core and are represented by an abstract operations record, so every theorem
below holds for all possible collaborator behaviours.

The Rust method `verify_add` takes `&mut self` and returns
`Result<(), CeremoniesError>`; it is embedded as a state transformer
returning the resulting `BatchTranscript` together with `Option` of the
error (`none` meaning `Ok(())`), mutating only where the source does.
The parallel `try_for_each` verification loop is embedded sequentially:
it reports an `InvalidCeremony` error at some failing index, which is all
the source guarantees about the reported index.
-/

/-- Error taxonomy of `CeremoniesError` as used by `batch_transcript.rs`:
a shape mismatch (expected, actual) or a per-slot verification failure
(slot index, underlying transcript-layer reason of abstract type E). -/
inductive CeremoniesError (E : Type) where
  | UnexpectedNumContributions : Nat → Nat → CeremoniesError E
  | InvalidCeremony : Nat → E → CeremoniesError E
  deriving DecidableEq

/-- Interface of the external collaborators consumed by the batch layer,
fixed by the source imports and by spec section 6: `tnew` is
`Transcript::new(num_g1, num_g2)`, `tcontribution` is the pure
`Transcript::contribution`, `verify` is the pure per-slot check
`Transcript::verify::<Engine>` (already specialised to an engine), `add` is
`Transcript::add` folding a sub-contribution into the slot state, and
`idNone` / `sigEmpty` are the `Identity::None` and `EcdsaSignature::empty()`
sentinels. T = Transcript state, C = sub-contribution, E = per-slot error
reason, I = Identity, S = EcdsaSignature. -/
structure TranscriptOps (T C E I S : Type) where
  tnew : Nat → Nat → T
  tcontribution : T → C
  verify : T → C → Except E Unit
  add : T → C → T
  idNone : I
  sigEmpty : S

/-- `BatchContribution`: one sub-contribution per transcript slot plus an
optional ECDSA signature over the bundle. -/
structure BatchContribution (C S : Type) where
  contributions : List C
  ecdsa_signature : Option S
  deriving DecidableEq

/-- `BatchTranscript`: the ordered transcript slots plus the append-only
history of participant identities and their ECDSA signatures. -/
structure BatchTranscript (T I S : Type) where
  transcripts : List T
  participant_ids : List I
  participant_ecdsa_signatures : List S
  deriving DecidableEq

variable {T C E I S : Type}

/-- `BatchTranscript::new`: one `Transcript::new(num_g1, num_g2)` per
parameter descriptor, genesis history `[Identity::None]` and
`[EcdsaSignature::empty()]`. -/
def BatchTranscript.new (ops : TranscriptOps T C E I S)
    (params : List (Nat × Nat)) : BatchTranscript T I S where
  transcripts := params.map fun p => ops.tnew p.1 p.2
  participant_ids := [ops.idNone]
  participant_ecdsa_signatures := [ops.sigEmpty]

/-- `BatchTranscript::contribution`: maps `Transcript::contribution` over the
slots and attaches no signature. -/
def BatchTranscript.contribution (ops : TranscriptOps T C E I S)
    (self : BatchTranscript T I S) : BatchContribution C S where
  contributions := self.transcripts.map ops.tcontribution
  ecdsa_signature := none

/-- The enumerated verification loop of `verify_add` (the
`par_iter_mut().zip(..).enumerate().try_for_each(..)` call): checks each
(transcript, sub-contribution) pair in turn, carrying the running index, and
stops at the first failing slot with `InvalidCeremony(i, reason)`. -/
def verifySlots (verify : T → C → Except E Unit) :
    Nat → List (T × C) → Option (CeremoniesError E)
  | _, [] => none
  | i, p :: rest =>
    match verify p.1 p.2 with
    | Except.error e => some (CeremoniesError.InvalidCeremony i e)
    | Except.ok _ => verifySlots verify (i + 1) rest

/-- `BatchTranscript::verify_add`, embedded as a state transformer: shape
check, verification loop, then the commit phase folding each
sub-contribution into its slot via `Transcript::add` and pushing the
identity onto `participant_ids`. The source pushes nothing onto
`participant_ecdsa_signatures`. `none` in the second component means
`Ok(())`; on an error the state component is the unchanged receiver, since
every `return Err` in the source happens before any mutation. -/
def BatchTranscript.verify_add (ops : TranscriptOps T C E I S)
    (self : BatchTranscript T I S) (contribution : BatchContribution C S)
    (identity : I) :
    BatchTranscript T I S × Option (CeremoniesError E) :=
  if self.transcripts.length ≠ contribution.contributions.length then
    (self, some (CeremoniesError.UnexpectedNumContributions
      self.transcripts.length contribution.contributions.length))
  else
    match verifySlots ops.verify 0
        (self.transcripts.zip contribution.contributions) with
    | some e => (self, some e)
    | none =>
      ({ transcripts := (self.transcripts.zip contribution.contributions).map
            fun p => ops.add p.1 p.2,
         participant_ids := self.participant_ids ++ [identity],
         participant_ecdsa_signatures := self.participant_ecdsa_signatures },
       none)

/-- Iterated calls of `contribution()` as a state-threading loop: each call
is the embedding of a shared-reference (`&self`) method, returning its
template and passing the receiver state through; the pair collects the final
state and the list of produced templates. -/
def contributionCalls (ops : TranscriptOps T C E I S) :
    Nat → BatchTranscript T I S →
    BatchTranscript T I S × List (BatchContribution C S)
  | 0, bt => (bt, [])
  | n + 1, bt =>
    let c := BatchTranscript.contribution ops bt
    let r := contributionCalls ops n bt
    (r.1, c :: r.2)

/-- Concrete collaborator instance used to evaluate the embedding on closed
inputs: transcript state is a Nat, a sub-contribution is a Bool that
verifies iff it is true, adding bumps the state, identities and signatures
are Nats with sentinel 0. -/
def opsW : TranscriptOps Nat Bool Unit Nat Nat where
  tnew := fun a b => a + b
  tcontribution := fun _ => true
  verify := fun _ c => if c then Except.ok () else Except.error ()
  add := fun t _ => t + 1
  idNone := 0
  sigEmpty := 0

/-- Concrete one-slot batch transcript in genesis state. -/
def btW : BatchTranscript Nat Nat Nat where
  transcripts := [5]
  participant_ids := [0]
  participant_ecdsa_signatures := [0]

/-- Concrete two-slot batch transcript in genesis state. -/
def bt2W : BatchTranscript Nat Nat Nat where
  transcripts := [3, 4]
  participant_ids := [0]
  participant_ecdsa_signatures := [0]

/-- The verification loop succeeds exactly when every pair verifies. -/
theorem verifySlots_eq_none_iff (verify : T → C → Except E Unit)
    (k : Nat) (pairs : List (T × C)) :
    verifySlots verify k pairs = none ↔
      ∀ p ∈ pairs, verify p.1 p.2 = Except.ok () := by
  induction pairs generalizing k with
  | nil => simp [verifySlots]
  | cons p rest ih =>
    rw [List.forall_mem_cons]
    rcases hv : verify p.1 p.2 with e | u
    · simp [verifySlots, hv]
    · cases u
      simp [verifySlots, hv, ih (k + 1)]

/-- When some pair fails, the verification loop reports `InvalidCeremony`
at an offset i from the running index k such that pair i indeed fails. -/
theorem verifySlots_some_of_fail (verify : T → C → Except E Unit)
    (k : Nat) (pairs : List (T × C))
    (hfail : ∃ p ∈ pairs, verify p.1 p.2 ≠ Except.ok ()) :
    ∃ i e, verifySlots verify k pairs =
        some (CeremoniesError.InvalidCeremony (k + i) e) ∧
      ∃ hi : i < pairs.length,
        verify (pairs.get ⟨i, hi⟩).1 (pairs.get ⟨i, hi⟩).2 = Except.error e := by
  induction pairs generalizing k with
  | nil => simp at hfail
  | cons p rest ih =>
    rcases hv : verify p.1 p.2 with e | u
    · exact ⟨0, e, by simp [verifySlots, hv], by simp, by simpa using hv⟩
    · cases u
      have hfail' : ∃ q ∈ rest, verify q.1 q.2 ≠ Except.ok () := by
        rcases hfail with ⟨q, hq, hne⟩
        rcases List.mem_cons.mp hq with hq1 | hq2
        · subst hq1; exact absurd hv hne
        · exact ⟨q, hq2, hne⟩
      rcases ih (k + 1) hfail' with ⟨i, e, heq, hi, hvi⟩
      refine ⟨i + 1, e, ?_, by simpa using Nat.succ_lt_succ hi, by simpa using hvi⟩
      have harith : k + 1 + i = k + (i + 1) := by omega
      simp only [verifySlots, hv, heq, harith]

/-- The final state of iterated contribution() calls is the starting state. -/
theorem contributionCalls_fst (ops : TranscriptOps T C E I S) (n : Nat)
    (bt : BatchTranscript T I S) : (contributionCalls ops n bt).1 = bt := by
  induction n with
  | zero => rfl
  | succ n ih => simpa [contributionCalls] using ih

/-- Iterated contribution() calls all return the same template. -/
theorem contributionCalls_snd (ops : TranscriptOps T C E I S) (n : Nat)
    (bt : BatchTranscript T I S) :
    (contributionCalls ops n bt).2 =
      List.replicate n (BatchTranscript.contribution ops bt) := by
  induction n with
  | zero => rfl
  | succ n ih => simp [contributionCalls, ih, List.replicate_succ]

/-- No branch of verify_add changes the number of transcript slots. -/
theorem verify_add_preserves_transcripts_length (ops : TranscriptOps T C E I S)
    (self : BatchTranscript T I S) (contribution : BatchContribution C S)
    (identity : I) :
    ((BatchTranscript.verify_add ops self contribution identity).1).transcripts.length
      = self.transcripts.length := by
  rw [BatchTranscript.verify_add]
  split
  · rfl
  · rename_i hlen
    split
    · rfl
    · have h : self.transcripts.length = contribution.contributions.length :=
        not_ne_iff.mp hlen
      simp [List.length_zip, h]

/-- C2: for every batch transcript and every right-shaped contribution in
which at least one slot fails verification, verify_add returns
InvalidCeremony at a failing slot index and the whole BatchTranscript
(slots, participant_ids, participant_ecdsa_signatures) is returned
unchanged: no partial commit, regardless of which other slots were valid. -/
theorem verify_add_atomic_on_invalid_slot (ops : TranscriptOps T C E I S)
    (self : BatchTranscript T I S) (contribution : BatchContribution C S)
    (identity : I)
    (hlen : self.transcripts.length = contribution.contributions.length)
    (hfail : ∃ p ∈ self.transcripts.zip contribution.contributions,
        ops.verify p.1 p.2 ≠ Except.ok ()) :
    ∃ i e, BatchTranscript.verify_add ops self contribution identity =
        (self, some (CeremoniesError.InvalidCeremony i e)) ∧
      ∃ hi : i < (self.transcripts.zip contribution.contributions).length,
        ops.verify ((self.transcripts.zip contribution.contributions).get ⟨i, hi⟩).1
            ((self.transcripts.zip contribution.contributions).get ⟨i, hi⟩).2 =
          Except.error e := by
  rcases verifySlots_some_of_fail ops.verify 0 _ hfail with ⟨i, e, heq, hi, hv⟩
  rw [Nat.zero_add] at heq
  refine ⟨i, e, ?_, hi, hv⟩
  rw [BatchTranscript.verify_add]
  simp [hlen, heq]

/-- Witness for C2 at a concrete input: a one-slot transcript and a
contribution whose single slot fails verification. -/
theorem verify_add_atomic_on_invalid_slot_w :
    ∃ i e, BatchTranscript.verify_add opsW btW ⟨[false], none⟩ 7 =
        (btW, some (CeremoniesError.InvalidCeremony i e)) ∧
      ∃ hi : i < (btW.transcripts.zip [false]).length,
        opsW.verify ((btW.transcripts.zip [false]).get ⟨i, hi⟩).1
            ((btW.transcripts.zip [false]).get ⟨i, hi⟩).2 = Except.error e :=
  verify_add_atomic_on_invalid_slot opsW btW ⟨[false], none⟩ 7 rfl
    ⟨(5, false), by simp [btW], by simp [opsW]⟩

/-- C4: a contribution whose length differs from the number of slots fails
immediately with UnexpectedNumContributions(expected, actual) and leaves the
whole BatchTranscript unchanged. -/
theorem verify_add_shape_mismatch (ops : TranscriptOps T C E I S)
    (self : BatchTranscript T I S) (contribution : BatchContribution C S)
    (identity : I)
    (hne : self.transcripts.length ≠ contribution.contributions.length) :
    BatchTranscript.verify_add ops self contribution identity =
      (self, some (CeremoniesError.UnexpectedNumContributions
        self.transcripts.length contribution.contributions.length)) := by
  rw [BatchTranscript.verify_add]
  simp [hne]

/-- Witness for C4: a one-slot transcript against an empty contribution. -/
theorem verify_add_shape_mismatch_w :
    BatchTranscript.verify_add opsW btW ⟨[], none⟩ 7 =
      (btW, some (CeremoniesError.UnexpectedNumContributions 1 0)) :=
  verify_add_shape_mismatch opsW btW ⟨[], none⟩ 7 (by decide)

/-- C5: new builds one transcript per parameter descriptor via
Transcript::new, in genesis state, with singleton histories
[Identity::None] and [EcdsaSignature::empty()]. -/
theorem new_genesis_state (ops : TranscriptOps T C E I S)
    (params : List (Nat × Nat)) :
    (BatchTranscript.new ops params).transcripts =
        params.map (fun p => ops.tnew p.1 p.2) ∧
      (BatchTranscript.new ops params).transcripts.length = params.length ∧
      (BatchTranscript.new ops params).participant_ids = [ops.idNone] ∧
      (BatchTranscript.new ops params).participant_ecdsa_signatures
        = [ops.sigEmpty] := by
  refine ⟨rfl, ?_, rfl, rfl⟩
  simp [BatchTranscript.new]

/-- C6: contribution() returns one entry per transcript slot, entry i being
slot i's own template (the map of Transcript::contribution over the slots),
with no ECDSA signature. -/
theorem contribution_is_per_slot_template (ops : TranscriptOps T C E I S)
    (bt : BatchTranscript T I S) :
    (BatchTranscript.contribution ops bt).contributions =
        bt.transcripts.map ops.tcontribution ∧
      (BatchTranscript.contribution ops bt).contributions.length =
        bt.transcripts.length ∧
      (BatchTranscript.contribution ops bt).ecdsa_signature = none := by
  refine ⟨rfl, ?_, rfl⟩
  simp [BatchTranscript.contribution]

/-- C7: calling contribution() any number of times without an intervening
verify_add leaves the BatchTranscript identical, and every call returns the
same template computed from that unchanged state. -/
theorem contribution_calls_never_mutate (ops : TranscriptOps T C E I S)
    (n : Nat) (bt : BatchTranscript T I S) :
    (contributionCalls ops n bt).1 = bt ∧
      (contributionCalls ops n bt).2 =
        List.replicate n (BatchTranscript.contribution ops bt) :=
  ⟨contributionCalls_fst ops n bt, contributionCalls_snd ops n bt⟩

/-- C8: the number of transcript slots is fixed by new at the number of
parameter descriptors, and is unchanged by every verify_add call (successful
or failing) and by any number of contribution() calls. -/
theorem transcripts_length_constant (ops : TranscriptOps T C E I S)
    (params : List (Nat × Nat)) (bt : BatchTranscript T I S)
    (c : BatchContribution C S) (ident : I) (n : Nat) :
    (BatchTranscript.new ops params).transcripts.length = params.length ∧
      ((BatchTranscript.verify_add ops bt c ident).1).transcripts.length =
        bt.transcripts.length ∧
      ((contributionCalls ops n bt).1).transcripts.length =
        bt.transcripts.length := by
  refine ⟨?_, verify_add_preserves_transcripts_length ops bt c ident, ?_⟩
  · simp [BatchTranscript.new]
  · rw [contributionCalls_fst]

/-- C9: verify_add never reads or stores the contribution's ecdsa_signature:
two contributions differing only in that field give identical results from
equal starting states, and the signature history is never extended. -/
theorem verify_add_ignores_ecdsa_signature (ops : TranscriptOps T C E I S)
    (bt : BatchTranscript T I S) (cs : List C) (s1 s2 : Option S) (ident : I) :
    BatchTranscript.verify_add ops bt ⟨cs, s1⟩ ident =
        BatchTranscript.verify_add ops bt ⟨cs, s2⟩ ident ∧
      ((BatchTranscript.verify_add ops bt ⟨cs, s1⟩ ident).1).participant_ecdsa_signatures
        = bt.participant_ecdsa_signatures := by
  refine ⟨rfl, ?_⟩
  rw [BatchTranscript.verify_add]
  split
  · rfl
  · split
    · rfl
    · rfl

/-- C10: on a BatchTranscript with no transcript slots, verify_add with an
empty contributions list always succeeds for every identity and appends that
identity to participant_ids; no per-slot verification can occur since there
are no slots, and the theorem holds for all possible verify functions. -/
theorem verify_add_empty_batch (ops : TranscriptOps T C E I S)
    (bt : BatchTranscript T I S) (c : BatchContribution C S) (ident : I)
    (ht : bt.transcripts = []) (hc : c.contributions = []) :
    BatchTranscript.verify_add ops bt c ident =
      ({ transcripts := [],
         participant_ids := bt.participant_ids ++ [ident],
         participant_ecdsa_signatures := bt.participant_ecdsa_signatures },
       none) := by
  rw [BatchTranscript.verify_add]
  simp [ht, hc, verifySlots]

/-- Witness for C10: the zero-slot transcript produced by new with no
descriptors accepts the empty contribution and records identity 7. -/
theorem verify_add_empty_batch_w :
    BatchTranscript.verify_add opsW (BatchTranscript.new opsW []) ⟨[], none⟩ 7 =
      (⟨[], [0, 7], [0]⟩, none) :=
  verify_add_empty_batch opsW (BatchTranscript.new opsW []) ⟨[], none⟩ 7 rfl rfl

/-- C1 is violated by the code: after one successful verify_add from the
one-slot genesis state, participant_ids has length 2 while
participant_ecdsa_signatures still has length 1, because the commit phase of
verify_add pushes only the identity and never extends the signature
history. -/
theorem verify_add_breaks_history_sync :
    (BatchTranscript.verify_add opsW btW ⟨[true], none⟩ 7).2 = none ∧
      ((BatchTranscript.verify_add opsW btW
        ⟨[true], none⟩ 7).1).participant_ids.length = 2 ∧
      ((BatchTranscript.verify_add opsW btW
        ⟨[true], none⟩ 7).1).participant_ecdsa_signatures.length = 1 :=
  ⟨rfl, rfl, rfl⟩

/-- C3 is violated by the code: a successful verify_add appends the passed
identity to participant_ids (whose length grows by 1) but leaves
participant_ecdsa_signatures at its old length instead of also growing it
by 1. -/
theorem verify_add_appends_identity_only :
    (BatchTranscript.verify_add opsW bt2W ⟨[true, true], none⟩ 9).2 = none ∧
      ((BatchTranscript.verify_add opsW bt2W
        ⟨[true, true], none⟩ 9).1).participant_ids = [0, 9] ∧
      ((BatchTranscript.verify_add opsW bt2W
        ⟨[true, true], none⟩ 9).1).participant_ecdsa_signatures = [0] :=
  ⟨rfl, rfl, rfl⟩
